import Mathlib

/-!
# FinSight core — verification development

Shallow embedding of the FinSight SMS-processing core
(`ML_Model/pipeline/labeler.py`, `classifier.py`, `fraud_detector.py`,
`extractor.py`, `ML_Model/main.py`) together with theorems settling the
frozen claims about it.

Modelling conventions:
* Python floats are modelled as exact rationals (`ℚ`); all arithmetic in
  the embedded code is on small exact decimals where binary rounding is
  not observable in any statement proved here.
* The large classification regexes (`SPAM_INDICATORS`, `OTP_PATTERN`,
  `AMOUNT_PATTERN`, …) are modelled as boolean oracles: a message is
  represented by the record of its match results, and the embedded
  cascade is the verified part.  The amount-extraction regex
  (`AMOUNT_REGEX` in `extractor.py`), whose input/output behaviour is
  itself claimed, is instead implemented as an executable matcher on
  character lists with Python `re.search` semantics.
* `round3` models Python `round(x, 3)`.  Every value it is applied to in
  this development is an exact multiple of 1/1000 (the scores are sums of
  the constants 0.05–0.40), so the tie-breaking rule is unobservable.
-/

namespace FinSight

/-- Python `round(x, 3)` (`main.py`/`classifier.py`/`fraud_detector.py`
round every reported confidence/score to three decimals).  All values it
receives in this development are exact multiples of 1/1000, where every
rounding mode agrees. -/
def round3 (q : ℚ) : ℚ := (⌊q * 1000 + 1/2⌋ : ℤ) / 1000

/-! ## Rule-based labeler (`pipeline/labeler.py`)

`label_sms(body, sender)` computes the match results of the module-level
regexes on `body`/`sender` and then runs a priority cascade over them.
`SmsFeatures` records exactly those match results; `label_sms` below is
the cascade of `labeler.py` lines 191–285 transcribed over it. -/

/-- Match results of the `labeler.py` pattern library on one message. -/
structure SmsFeatures where
  /-- `SPAM_INDICATORS.search(body)` -/
  spam_match : Bool
  /-- `OTP_PATTERN.search(body)` -/
  otp_match : Bool
  /-- `AMOUNT_PATTERN.search(body)` -/
  amount_match : Bool
  /-- `ACCOUNT_PATTERN.search(body)` -/
  account_match : Bool
  /-- `CREDIT_INDICATORS.search(body)` -/
  credit_match : Bool
  /-- `DEBIT_INDICATORS.search(body)` -/
  debit_match : Bool
  /-- `BANK_SENDER_PATTERNS.search(sender_upper)` -/
  bank_sender_match : Bool
  /-- `UPI_PATTERN.search(body)` -/
  upi_match : Bool
  /-- `NEFT_PATTERN.search(body)` -/
  neft_match : Bool
  /-- `IMPS_PATTERN.search(body)` -/
  imps_match : Bool
  /-- `BALANCE_PATTERN.search(body)` -/
  balance_match : Bool
  /-- `NON_TRANSACTION_FINANCIAL.search(body)` -/
  non_transaction_match : Bool
  /-- `PROMO_INDICATORS.search(body)` -/
  promo_match : Bool
  /-- `re.match(r'^\+?\d{10,}$', sender)` -/
  phone_sender : Bool
  /-- `CREDIT_INDICATORS.search(body).start()` (meaningful when `credit_match`) -/
  credit_pos : Nat
  /-- `DEBIT_INDICATORS.search(body).start()` (meaningful when `debit_match`) -/
  debit_pos : Nat
  /-- `'statement' in body_lower` -/
  kw_statement : Bool
  /-- `'emi' in body_lower or 'payment due' in body_lower or 'overdue' in body_lower` -/
  kw_emi_due : Bool
  /-- `'balance' in body_lower or 'bal' in body_lower` -/
  kw_balance : Bool
  /-- `'block' in body_lower or 'suspend' in body_lower` -/
  kw_block : Bool
  deriving DecidableEq, Repr

/-- `labeler.py` lines 227–233: the additive transaction score. -/
def transaction_score (f : SmsFeatures) : ℚ :=
  (if f.amount_match then 25/100 else 0) +
  (if f.account_match then 20/100 else 0) +
  (if f.credit_match || f.debit_match then 30/100 else 0) +
  (if f.bank_sender_match then 15/100 else 0) +
  (if f.upi_match || f.neft_match || f.imps_match then 10/100 else 0)

/-- `labeler.py` lines 253–258: the additive financial-alert score. -/
def financial_alert_score (f : SmsFeatures) : ℚ :=
  (if f.bank_sender_match then 30/100 else 0) +
  (if f.amount_match then 15/100 else 0) +
  (if f.balance_match then 20/100 else 0) +
  (if f.non_transaction_match then 25/100 else 0) +
  (if f.account_match then 10/100 else 0)

/-- `labeler.py` lines 191–285: the priority cascade
spam → OTP → (non-transaction gate) → transaction → financial alert →
promotional → personal → default.  Returns `(label, sub_label, confidence)`. -/
def label_sms (f : SmsFeatures) : String × String × ℚ :=
  if f.spam_match then ("spam", "phishing", 9/10)
  else if f.otp_match && !(f.amount_match && (f.credit_match || f.debit_match)) then
    ("otp", "verification", 95/100)
  else
    -- step 3: is_non_transaction := NON_TRANSACTION_FINANCIAL.search(body)
    -- step 4: transaction scoring, skipped entirely when is_non_transaction
    if !f.non_transaction_match && transaction_score f ≥ 50/100 then
      let sub_label :=
        if f.credit_match && !f.debit_match then "credit"
        else if f.debit_match && !f.credit_match then "debit"
        else if f.credit_match && f.debit_match then
          (if f.debit_pos < f.credit_pos then "debit" else "credit")
        else "unknown_direction"
      ("financial_transaction", sub_label, min (transaction_score f + 10/100) 1)
    else
      if financial_alert_score f ≥ 40/100 then
        let sub_label :=
          if f.kw_statement then "statement"
          else if f.kw_emi_due then "payment_reminder"
          else if f.kw_balance then "balance_info"
          else if f.kw_block then "security_alert"
          else "general_alert"
        ("financial_alert", sub_label, min (financial_alert_score f + 10/100) 1)
      else if f.promo_match then ("promotional", "marketing", 80/100)
      else if f.phone_sender then ("personal", "p2p_message", 70/100)
      else ("promotional", "informational", 60/100)

/-! ## Hybrid classification router (`pipeline/classifier.py`)

`SmsClassifier.classify` runs the rule-based labeler, then — only when the
rule confidence is below `CONFIDENCE_THRESHOLD = 0.65` and a trained model
is loaded — asks `_ml_predict` and accepts its label when strictly more
confident.  The trained model is external (§6 of the spec): the outcome of
`self._ml_predict(body, sender)` is abstracted as an `Option (String × ℚ)`
argument, `none` standing for a raised exception (the `try/except` keeps
the rule result). -/

/-- `classifier.py` line 41. -/
def CONFIDENCE_THRESHOLD : ℚ := 65/100

/-- The dict returned by `SmsClassifier.classify`. -/
structure ClassificationResult where
  label : String
  sub_label : String
  confidence : ℚ
  /-- `'rule_based'` or `'ml_ensemble'` (the code's identifier for the
  spec's "statistical" method). -/
  method : String
  deriving DecidableEq, Repr

/-- `classifier.py` lines 69–97 (`SmsClassifier.classify`). -/
def classify (f : SmsFeatures) (is_trained : Bool)
    (ml_predict : Option (String × ℚ)) : ClassificationResult :=
  let r := label_sms f
  let result : ClassificationResult :=
    { label := r.1, sub_label := r.2.1, confidence := round3 r.2.2,
      method := "rule_based" }
  if r.2.2 < CONFIDENCE_THRESHOLD ∧ is_trained then
    match ml_predict with
    | some (ml_label, ml_confidence) =>
      if ml_confidence > r.2.2 then
        { label := ml_label, sub_label := r.2.1,
          confidence := round3 ml_confidence, method := "ml_ensemble" }
      else result
    | none => result
  else result

/-! ## Fraud & anomaly detector (`pipeline/fraud_detector.py`)

`detect_anomaly(transaction, user_history)` works on the dicts produced by
`extractor.extract_transaction`; `AnomalyTxn` holds the four fields it
reads.  Python truthiness of the fields is modelled explicitly: a missing
(`None`) amount and an amount of `0` are both falsy, a missing
counterparty and the empty-string counterparty are both falsy.  The
`timestamp` field goes through `int(...)` inside a `try/except`: `none`
models a value on which `int()` raises (e.g. the empty string the
extractor stores when the SMS has no date); an absent key defaults to `0`
and is modelled as `some 0`. -/

/-- The fields of an extracted-transaction dict that `detect_anomaly` reads. -/
structure AnomalyTxn where
  amount : Option ℚ
  transaction_type : Option String
  /-- `none` models a `timestamp` value on which `int()` raises. -/
  timestamp : Option Int
  counterparty : Option String
  deriving DecidableEq, Repr

/-- Tags for the human-readable strings appended to `anomaly_reasons`
(the message text itself is not modelled). -/
inductive AnomalyReason where
  /-- `'Amount Rs.{amount} is {z:.1f} std devs from mean Rs.{mean:.0f}'` -/
  | amount_z_high
  /-- `'Amount Rs.{amount} is unusually high/low'` -/
  | amount_z_moderate
  /-- `'{n} debits in 24 hours is unusual'` -/
  | frequent_debits
  /-- `'New counterparty: {counterparty}'` -/
  | new_counterparty
  deriving DecidableEq, Repr

/-- Python truthiness of the `amount` value (`None` and `0` are falsy). -/
def amountTruthy : Option ℚ → Bool
  | none => false
  | some q => q != 0

/-- `fraud_detector.py` line 146:
`[t.get('amount', 0) for t in user_history if t.get('amount')]`. -/
def historicalAmounts (user_history : List AnomalyTxn) : List ℚ :=
  user_history.filterMap fun t =>
    match t.amount with
    | some q => if q ≠ 0 then some q else none
    | none => none

/-- `np.mean` of a list of rationals. -/
def listMean (l : List ℚ) : ℚ := l.sum / l.length

/-- `np.std(l) ** 2`: the population variance.  `np.std` itself is its
square root; the detector's comparisons against the z-score are expressed
below through the variance so that everything stays inside `ℚ` (the C5
theorem proves the two formulations agree). -/
def listVar (l : List ℚ) : ℚ := (l.map fun x => (x - listMean l) ^ 2).sum / l.length

/-- `fraud_detector.py` lines 145–157, the amount-anomaly block:
`std = np.std(historical_amounts) or 1.0` (so the divisor is the standard
deviation itself whenever it is non-zero, and `1.0` only when it is
zero), `z = abs((amount - mean) / std)`, `z > 3 → +0.40`,
`else z > 2 → +0.20`.  Since `std = 0 ↔ var = 0` and for `std > 0`
`z > c ↔ (amount - mean)² > c² · var`, the check is phrased on squares. -/
def z_component (transaction : AnomalyTxn) (user_history : List AnomalyTxn) :
    ℚ × List AnomalyReason :=
  match transaction.amount with
  | none => (0, [])
  | some amount =>
    let historical_amounts := historicalAmounts user_history
    if historical_amounts.length ≥ 5 then
      let mean_amount := listMean historical_amounts
      let var_amount := listVar historical_amounts
      if var_amount = 0 then
        if |amount - mean_amount| > 3 then (40/100, [.amount_z_high])
        else if |amount - mean_amount| > 2 then (20/100, [.amount_z_moderate])
        else (0, [])
      else
        if (amount - mean_amount) ^ 2 > 9 * var_amount then (40/100, [.amount_z_high])
        else if (amount - mean_amount) ^ 2 > 4 * var_amount then (20/100, [.amount_z_moderate])
        else (0, [])
    else (0, [])

/-- `fraud_detector.py` lines 159–174, the frequency-anomaly block.  The
whole block sits in a `try/except (ValueError, TypeError)`: if `int()`
raises on the current transaction's timestamp, or on the timestamp of any
history entry whose `transaction_type` is `'debit'` (the generator
short-circuits on the type test first), the block contributes nothing. -/
def freq_component (transaction : AnomalyTxn) (user_history : List AnomalyTxn) :
    ℚ × List AnomalyReason :=
  if transaction.transaction_type = some "debit" ∧ user_history.length ≥ 3 then
    match transaction.timestamp with
    | none => (0, [])
    | some current_ts =>
      if user_history.any fun t =>
          t.transaction_type == some "debit" && t.timestamp == none then (0, [])
      else
        let recent_debits := (user_history.filter fun t =>
          t.transaction_type == some "debit" &&
            match t.timestamp with
            | some ts => |ts - current_ts| < 86400000
            | none => false).length
        if recent_debits > 5 then (30/100, [.frequent_debits]) else (0, [])
  else (0, [])

/-- `fraud_detector.py` lines 176–184, the new-counterparty block:
`counterparty = transaction.get('counterparty', '')`; known counterparties
are the distinct truthy counterparty strings of the history. -/
def counterparty_component (transaction : AnomalyTxn)
    (user_history : List AnomalyTxn) : ℚ × List AnomalyReason :=
  let counterparty := transaction.counterparty.getD ""
  if counterparty ≠ "" then
    let known_counterparties := (user_history.filterMap fun t =>
      match t.counterparty with
      | some s => if s ≠ "" then some s else none
      | none => none).dedup
    if counterparty ∉ known_counterparties ∧ known_counterparties.length > 3 then
      (10/100, [.new_counterparty])
    else (0, [])
  else (0, [])

/-- The dict returned by `detect_anomaly`. -/
structure AnomalyAssessment where
  is_anomaly : Bool
  anomaly_score : ℚ
  anomaly_reasons : List AnomalyReason
  deriving DecidableEq, Repr

/-- `fraud_detector.py` lines 118–192 (`detect_anomaly`): inert when the
amount is falsy or the history is empty, otherwise the sum of the three
scoring blocks; `is_anomaly` compares the raw sum with 0.30, the reported
score is `round(min(score, 1.0), 3)`. -/
def detect_anomaly (transaction : AnomalyTxn) (user_history : List AnomalyTxn) :
    AnomalyAssessment :=
  if !amountTruthy transaction.amount || user_history.isEmpty then
    { is_anomaly := false, anomaly_score := 0, anomaly_reasons := [] }
  else
    let z := z_component transaction user_history
    let fr := freq_component transaction user_history
    let cp := counterparty_component transaction user_history
    let score := z.1 + fr.1 + cp.1
    { is_anomaly := score ≥ 30/100,
      anomaly_score := round3 (min score 1),
      anomaly_reasons := z.2 ++ fr.2 ++ cp.2 }

/-- The z block as §4.3 of the spec words it, with divisor
`max(std, 1.0)` instead of the code's `std or 1.0`: since
`std ≤ 1 ↔ var ≤ 1`, the divisor is 1 exactly when the variance is ≤ 1.
Used only to compare the spec's wording against `z_component`. -/
def z_component_specMax (transaction : AnomalyTxn)
    (user_history : List AnomalyTxn) : ℚ × List AnomalyReason :=
  match transaction.amount with
  | none => (0, [])
  | some amount =>
    let historical_amounts := historicalAmounts user_history
    if historical_amounts.length ≥ 5 then
      let mean_amount := listMean historical_amounts
      let var_amount := listVar historical_amounts
      if var_amount ≤ 1 then
        if |amount - mean_amount| > 3 then (40/100, [.amount_z_high])
        else if |amount - mean_amount| > 2 then (20/100, [.amount_z_moderate])
        else (0, [])
      else
        if (amount - mean_amount) ^ 2 > 9 * var_amount then (40/100, [.amount_z_high])
        else if (amount - mean_amount) ^ 2 > 4 * var_amount then (20/100, [.amount_z_moderate])
        else (0, [])
    else (0, [])

/-! ## Spam detection and the combined assessment
(`fraud_detector.py`, `detect_spam` / `analyze_sms`)

`detect_spam(sms)` iterates the 11 compiled `SPAM_PATTERNS`, checks the
sender shape, and scans the body URLs.  As with the labeler, the regex
matches are boolean oracles collected in `SpamSms`; the scoring loop over
them is the embedded part. -/

/-- Match results that `detect_spam` computes on one message. -/
structure SpamSms where
  /-- `SPAM_PATTERNS[i].search(body)` for the 11 patterns, in order
  (0–2 lottery, 3–5 fake bank/KYC, 6–7 loan scam, 8 shortened URL,
  9–10 OTP theft). -/
  spamHit : Fin 11 → Bool
  /-- `LEGITIMATE_BANK_PREFIXES.match(sender)` -/
  legit_prefix : Bool
  /-- `re.match(r'^\+?\d{10,}$', sender)` -/
  phone_sender : Bool
  /-- `any(kw in body.lower() for kw in ['bank', 'account', 'card', 'upi'])` -/
  financial_keyword : Bool
  /-- one entry per `https?://` URL found in the body: whether some
  known-bank domain is a substring of its host -/
  url_known : List Bool
  /-- `any(kw in body.lower() for kw in ['click', 'verify', 'update', 'kyc'])` -/
  urgency_keyword : Bool

/-- `spam_type` assigned for a hit of pattern `i`
(`fraud_detector.py` lines 76–90; the last matching pattern wins). -/
def spamTypeOf (i : Fin 11) : String :=
  if i.val < 3 then "lottery_scam"
  else if i.val < 6 then "fake_bank_alert"
  else if i.val < 8 then "loan_scam"
  else if i.val < 9 then "phishing_url"
  else "otp_theft"

/-- The dict returned by `detect_spam` (reason strings abstracted away:
only their count matters to the claims, none of which inspects them). -/
structure SpamAssessment where
  is_spam : Bool
  spam_type : Option String
  spam_confidence : ℚ
  reason_count : Nat
  deriving DecidableEq, Repr

/-- `fraud_detector.py` lines 58–115 (`detect_spam`): +0.30 per matching
spam pattern (the last match's category is the `spam_type`), +0.15 for a
non-standard sender with financial vocabulary, +0.20 per body URL outside
the bank-domain allowlist when urgency wording is present;
`is_spam ⟺ total ≥ 0.30`. -/
def detect_spam (s : SpamSms) : SpamAssessment :=
  let hits := (List.finRange 11).filter s.spamHit
  let pattern_confidence : ℚ := (30/100) * hits.length
  let spam_type := (hits.map spamTypeOf).getLast?
  let sender_bump : ℚ :=
    if !s.legit_prefix && !s.phone_sender && s.financial_keyword then 15/100 else 0
  let url_bump : ℚ :=
    if s.urgency_keyword then (20/100) * (s.url_known.filter (fun k => !k)).length else 0
  let confidence := pattern_confidence + sender_bump + url_bump
  let reason_count := hits.length +
    (if !s.legit_prefix && !s.phone_sender && s.financial_keyword then 1 else 0) +
    (if s.urgency_keyword then (s.url_known.filter (fun k => !k)).length else 0)
  let is_spam := confidence ≥ 30/100
  { is_spam := is_spam,
    spam_type := if is_spam then spam_type else none,
    spam_confidence := round3 (min confidence 1),
    reason_count := if is_spam then reason_count else 0 }

/-- The dict returned by `analyze_sms`. -/
structure FraudAnalysis where
  is_genuine : Bool
  is_spam : Bool
  is_anomaly : Bool
  fraud_type : Option String
  fraud_confidence : ℚ
  reason_count : Nat
  deriving DecidableEq, Repr

/-- `fraud_detector.py` lines 195–225 (`analyze_sms`): spam detection,
then — spam or not — a hard-coded inert anomaly result; the
`user_history` argument is accepted but never used. -/
def analyze_sms (s : SpamSms) (_user_history : List AnomalyTxn) : FraudAnalysis :=
  let spam_result := detect_spam s
  if spam_result.is_spam then
    { is_genuine := false, is_spam := true, is_anomaly := false,
      fraud_type := spam_result.spam_type,
      fraud_confidence := spam_result.spam_confidence,
      reason_count := spam_result.reason_count }
  else
    -- anomaly_result = {'is_anomaly': False, 'anomaly_score': 0.0, ...},
    -- never recomputed
    { is_genuine := !spam_result.is_spam, is_spam := false, is_anomaly := false,
      fraud_type := none, fraud_confidence := 0, reason_count := 0 }

/-! ## Dedup key (`main.py`, `_transaction_hash` / `_safe_float`)

`_transaction_hash(txn)` stringifies six dict entries, joins them with
`'|'` and returns the SHA-256 hex digest.  A dict entry can be absent
(`.get` supplies the default: `0` for `amount`, `''` for the rest), can
hold Python `None` (the extractor emits every key, with `None` for
missing data), a string, or a float; `PyField` covers those cases.  The
digest itself is the standard SHA-256, taken as a parameter — the claims
are about the pre-image string. -/

/-- A value held at one of the six hashed keys of a transaction dict. -/
inductive PyField where
  /-- the key is absent from the dict -/
  | absent
  /-- the key holds Python `None` -/
  | pynone
  /-- the key holds a string -/
  | str (s : String)
  /-- the key holds a number -/
  | num (q : ℚ)
  deriving DecidableEq, Repr

/-- The six fields of a transaction dict that `_transaction_hash` reads. -/
structure HashedTxn where
  amount : PyField
  transaction_date : PyField
  transaction_type : PyField
  sender : PyField
  bank_name : PyField
  counterparty : PyField
  deriving DecidableEq, Repr

/-- Digits after the decimal point of `num/den` (with `num < den`),
up to `fuel` digits.  The rationals hashed in this development all have
short terminating expansions, for which this agrees with Python's
shortest float repr. -/
def fracDigits (fuel num den : ℕ) : List Char :=
  match fuel with
  | 0 => []
  | fuel + 1 =>
    if num = 0 then []
    else
      let num' := num * 10
      Char.ofNat (48 + num' / den) :: fracDigits fuel (num' % den) den

/-- Python `str` of a float holding the exact decimal `q`: sign, integer
part, `'.'`, fractional digits (`"0"` when the value is integral, so
`str(0.0) = "0.0"`).  Python's scientific notation for huge/tiny values
is outside the range of anything hashed here. -/
def floatStr (q : ℚ) : String :=
  let sign := if q.num < 0 then "-" else ""
  let n := q.num.natAbs
  let ip := n / q.den
  let rem := n % q.den
  let frac := if rem = 0 then "0" else String.mk (fracDigits 17 rem q.den)
  sign ++ toString ip ++ "." ++ frac

/-- A small model of Python `float(s)` for plain decimal literals
(optional sign, digits, optional fractional digits); `none` models a
raised `ValueError`.  (Exponent/`inf`/`nan` forms never occur in these
dicts' `amount` values, which are floats or `None`.) -/
def pyFloatLit? (s : String) : Option ℚ :=
  let chars := s.data
  let (sign, rest) : ℚ × List Char :=
    match chars with
    | '-' :: cs => (-1, cs)
    | '+' :: cs => (1, cs)
    | cs => (1, cs)
  let ipart := rest.takeWhile Char.isDigit
  let rest2 := rest.dropWhile Char.isDigit
  let (fpart, rest3) : List Char × List Char :=
    match rest2 with
    | '.' :: cs => (cs.takeWhile Char.isDigit, cs.dropWhile Char.isDigit)
    | cs => ([], cs)
  if rest3 = [] ∧ (ipart ≠ [] ∨ fpart ≠ []) then
    let iv : ℕ := ipart.foldl (fun acc c => 10 * acc + (c.toNat - 48)) 0
    let fv : ℕ := fpart.foldl (fun acc c => 10 * acc + (c.toNat - 48)) 0
    some (sign * ((iv : ℚ) + (fv : ℚ) / 10 ^ fpart.length))
  else none

/-- `main.py` lines 70–77 (`_safe_float`): `None → 0.0`, numbers pass
through `float()`, strings are parsed with `ValueError → 0.0`; `absent`
never reaches it (`.get` already substituted the default). -/
def safe_float : PyField → ℚ
  | .absent => 0
  | .pynone => 0
  | .str s => (pyFloatLit? s).getD 0
  | .num q => q

/-- `str(_safe_float(txn.get('amount', 0)))`: an absent key defaults to
the int `0`, which `_safe_float` turns into `0.0`. -/
def amountStr (v : PyField) : String :=
  floatStr (safe_float (match v with | .absent => .num 0 | w => w))

/-- `str(txn.get(key, ''))` for the five string-typed keys: absent → `""`
(the default), `None` → `"None"` (Python `str(None)`). -/
def strField : PyField → String
  | .absent => ""
  | .pynone => "None"
  | .str s => s
  | .num q => floatStr q

/-- The `'|'.join(parts)` pre-image string of `_transaction_hash`
(`main.py` lines 85–96). -/
def dedupKeyString (t : HashedTxn) : String :=
  amountStr t.amount ++ "|" ++ strField t.transaction_date ++ "|" ++
    strField t.transaction_type ++ "|" ++ strField t.sender ++ "|" ++
    strField t.bank_name ++ "|" ++ strField t.counterparty

/-- `_transaction_hash`: the SHA-256 hex digest (abstracted as the
parameter `sha256_hexdigest`) of the joined normalized fields. -/
def transaction_hash (sha256_hexdigest : String → String) (t : HashedTxn) : String :=
  sha256_hexdigest (dedupKeyString t)

/-! ## Amount extraction (`pipeline/extractor.py`, `AMOUNT_REGEX` / `parse_amount`)

```
AMOUNT_REGEX = (?:Rs\.?|INR|₹)\s*([\d,]+(?:\.\d\x7b1,2\x7d)?)
             | ([\d,]+(?:\.\d\x7b1,2\x7d)?)\s*(?:Rs\.?|INR|₹)     (IGNORECASE)
```

`re.search` semantics for this particular pattern are implemented
directly over the character list: start positions are tried left to
right, the first alternative before the second, quantifiers greedily.
`[\d,]+` and `\s*` can be taken maximally without loss, because no later
element of either alternative can match a digit, a comma or a space;
genuine backtracking only arises in the optional fraction of the second
alternative, where the matcher tries the 2-digit, 1-digit and absent
fraction in that order. -/

/-- The character class `[\d,]`. -/
def isDigitComma (c : Char) : Bool := c.isDigit || c == ','

/-- Python `\s` (ASCII range). -/
def isPySpace (c : Char) : Bool :=
  c == ' ' || c == '\t' || c == '\n' || c == '\r' || c == '\x0b' || c == '\x0c'

/-- Match `(?:Rs\.?|INR|₹)` case-insensitively at the head of `l`,
returning the remainder.  (`Rs\.?` takes its optional dot greedily;
declining the dot can never rescue a failed continuation here, since
after the token both alternatives need `\s*[\d,]` or nothing, neither of
which matches `'.'`.) -/
def matchCurrency : List Char → Option (List Char)
  | [] => none
  | c1 :: rest =>
    if c1.toLower == 'r' then
      match rest with
      | c2 :: rest2 =>
        if c2.toLower == 's' then
          some (match rest2 with
            | '.' :: rest3 => rest3
            | _ => rest2)
        else none
      | [] => none
    else if c1.toLower == 'i' then
      match rest with
      | c2 :: c3 :: rest3 =>
        if c2.toLower == 'n' && c3.toLower == 'r' then some rest3 else none
      | _ => none
    else if c1 == '₹' then some rest
    else none

/-- Greedy `(?:\.\d\x7b1,2\x7d)?` with nothing after it: the consumed
characters and the remainder. -/
def takeFraction : List Char → List Char × List Char
  | '.' :: d1 :: d2 :: rest =>
    if d1.isDigit then
      if d2.isDigit then (['.', d1, d2], rest) else (['.', d1], d2 :: rest)
    else ([], '.' :: d1 :: d2 :: rest)
  | '.' :: d1 :: rest =>
    if d1.isDigit then (['.', d1], rest) else ([], '.' :: d1 :: rest)
  | l => ([], l)

/-- First alternative `(?:Rs\.?|INR|₹)\s*([\d,]+(?:\.\d\x7b1,2\x7d)?)`
at the head of `l`; returns the capture group. -/
def matchAlt1 (l : List Char) : Option (List Char) :=
  match matchCurrency l with
  | none => none
  | some r1 =>
    let r2 := r1.dropWhile isPySpace
    let ds := r2.takeWhile isDigitComma
    if ds.isEmpty then none
    else some (ds ++ (takeFraction (r2.dropWhile isDigitComma)).1)

/-- Close out the second alternative after its capture: `\s*` then a
currency token. -/
def finishAlt2 (l : List Char) : Bool :=
  (matchCurrency (l.dropWhile isPySpace)).isSome

/-- Second alternative `([\d,]+(?:\.\d\x7b1,2\x7d)?)\s*(?:Rs\.?|INR|₹)`
at the head of `l`; greedy fraction with backtracking. -/
def matchAlt2 (l : List Char) : Option (List Char) :=
  let ds := l.takeWhile isDigitComma
  if ds.isEmpty then none
  else
    match l.dropWhile isDigitComma with
    | '.' :: d1 :: d2 :: rest =>
      if d1.isDigit && d2.isDigit && finishAlt2 rest then some (ds ++ ['.', d1, d2])
      else if d1.isDigit && finishAlt2 (d2 :: rest) then some (ds ++ ['.', d1])
      else if finishAlt2 ('.' :: d1 :: d2 :: rest) then some ds
      else none
    | '.' :: d1 :: rest =>
      if d1.isDigit && finishAlt2 rest then some (ds ++ ['.', d1])
      else if finishAlt2 ('.' :: d1 :: rest) then some ds
      else none
    | r => if finishAlt2 r then some ds else none

/-- `re.search(AMOUNT_REGEX, text)`: leftmost match, first alternative
preferred at equal positions; returns the non-empty capture
(`match.group(1) or match.group(2)`) that `parse_amount` reads. -/
def searchAmount : List Char → Option (List Char)
  | [] => none
  | c :: rest =>
    match matchAlt1 (c :: rest) with
    | some g => some g
    | none =>
      match matchAlt2 (c :: rest) with
      | some g => some g
      | none => searchAmount rest

/-- Python `str.strip()` (no-op on the captures here, which never
contain whitespace). -/
def pyStrip (l : List Char) : List Char :=
  ((l.dropWhile isPySpace).reverse.dropWhile isPySpace).reverse

/-- `extractor.py` lines 125–136 (`parse_amount`): first `AMOUNT_REGEX`
match, commas stripped, `.strip()`, then `float(...)` with
`ValueError → None`. -/
def parse_amount (text : String) : Option ℚ :=
  match searchAmount text.data with
  | none => none
  | some g =>
    pyFloatLit? (String.mk (pyStrip (g.filter fun c => c != ',')))

/-- `text` contains one of the currency markers `Rs` / `INR` / `₹`
(case-insensitively) somewhere — what the claim calls "a currency
marker". -/
def containsCurrencyMarker (l : List Char) : Prop :=
  ['r', 's'] <:+: l.map Char.toLower ∨
    ['i', 'n', 'r'] <:+: l.map Char.toLower ∨ '₹' ∈ l

instance (l : List Char) : Decidable (containsCurrencyMarker l) := by
  unfold containsCurrencyMarker
  infer_instance

/-! ## Theorems -/

theorem round3_mono {a b : ℚ} (h : a ≤ b) : round3 a ≤ round3 b := by
  unfold round3
  have hf : (⌊a * 1000 + 1/2⌋ : ℤ) ≤ ⌊b * 1000 + 1/2⌋ := by
    apply Int.floor_le_floor
    nlinarith
  have : ((⌊a * 1000 + 1/2⌋ : ℤ) : ℚ) ≤ ((⌊b * 1000 + 1/2⌋ : ℤ) : ℚ) := by
    exact_mod_cast hf
  linarith

theorem round3_nonneg {a : ℚ} (h : 0 ≤ a) : 0 ≤ round3 a := by
  have h0 : round3 0 = 0 := by norm_num [round3]
  calc (0 : ℚ) = round3 0 := h0.symm
    _ ≤ round3 a := round3_mono h

/-- **C2.** Every message whose body matches a spam-indicator pattern is
returned as exactly `(spam, phishing, 0.90)`, whatever the sender looks
like and whatever transaction-looking matches (amount, account,
credit/debit, OTP) are simultaneously present: the spam gate is the
first branch of the cascade. -/
theorem C2_spam_gate_terminal (f : SmsFeatures) (h : f.spam_match = true) :
    label_sms f = ("spam", "phishing", 9/10) := by
  simp [label_sms, h]

/-- Witness for `C2_spam_gate_terminal`: a message matching the spam
pattern together with amount + account + debit + OTP matches. -/
theorem C2_spam_gate_terminal_witness :
    label_sms ⟨true, true, true, true, true, true, true, true, true, true,
      true, true, true, true, 0, 0, true, true, true, true⟩ =
      ("spam", "phishing", 9/10) :=
  C2_spam_gate_terminal _ rfl

/-- **C1.** A body that matches the non-transaction gate
(`NON_TRANSACTION_FINANCIAL`) and matches neither the spam gate nor the
terminal OTP gate is never labelled `financial_transaction`, no matter
which amount/account/credit/debit signals are present: the gate boolean
suppresses transaction scoring entirely. -/
theorem C1_non_transaction_gate_blocks_transaction (f : SmsFeatures)
    (hnt : f.non_transaction_match = true)
    (hspam : f.spam_match = false)
    (_hotp : ¬ (f.otp_match = true ∧
      ¬ (f.amount_match = true ∧ (f.credit_match = true ∨ f.debit_match = true)))) :
    (label_sms f).1 ≠ "financial_transaction" := by
  unfold label_sms
  simp only [hspam, hnt, Bool.false_eq_true, if_false, Bool.not_true,
    Bool.false_and, Bool.and_false]
  split
  · simp
  · split
    · simp
    · split
      · simp
      · split
        · simp
        · simp

/-- Witness for `C1_non_transaction_gate_blocks_transaction`: a bill-due
style body carrying an amount, an account and a debit keyword. -/
theorem C1_non_transaction_gate_blocks_transaction_witness :
    (label_sms ⟨false, false, true, true, false, true, true, false, false, false,
      false, true, false, false, 0, 0, false, true, false, false⟩).1 ≠
      "financial_transaction" :=
  C1_non_transaction_gate_blocks_transaction _ rfl rfl (by simp)

/-- **C10.** (implicit) Whatever the match results, the labeler's
confidence lies in the closed interval `[0.5, 1]` — every cascade exit is
either one of the constants 0.60/0.70/0.80/0.90/0.95 or
`min (score + 0.10) 1` with the score at/above its 0.50 (transaction) or
0.40 (alert) threshold — and the label is one of the six primary labels. -/
theorem C10_confidence_range_and_labels (f : SmsFeatures) :
    1/2 ≤ (label_sms f).2.2 ∧ (label_sms f).2.2 ≤ 1 ∧
      (label_sms f).1 ∈ ["financial_transaction", "financial_alert", "otp",
        "promotional", "personal", "spam"] := by
  unfold label_sms
  split
  · norm_num
  split
  · norm_num
  split
  · rename_i hts
    have hts' : (50 : ℚ)/100 ≤ transaction_score f := by
      have := (Bool.and_eq_true _ _).mp hts
      exact_mod_cast of_decide_eq_true this.2
    refine ⟨le_min (by linarith) (by norm_num), min_le_right _ _, by simp⟩
  split
  · rename_i has
    have has' : (40 : ℚ)/100 ≤ financial_alert_score f := has
    refine ⟨le_min (by linarith) (by norm_num), min_le_right _ _, by simp⟩
  split
  · norm_num
  split
  · norm_num
  · norm_num

/-- The rule-based labeler only emits confidences that are exact multiples
of 0.05, so the classifier's `round(confidence, 3)` leaves them unchanged. -/
theorem round3_label_sms (f : SmsFeatures) :
    round3 (label_sms f).2.2 = (label_sms f).2.2 := by
  have key : ∀ q : ℚ, (∃ n : ℤ, q = n / 20) → round3 q = q := by
    rintro q ⟨n, rfl⟩
    unfold round3
    have h1 : (n : ℚ)/20 * 1000 + 1/2 = ((n * 50 : ℤ) : ℚ) + (1/2 : ℚ) := by
      push_cast; ring
    have h2 : ⌊(1/2 : ℚ)⌋ = 0 := by norm_num
    rw [h1, Int.floor_int_add, h2]
    push_cast
    ring
  have score20 : ∀ g : SmsFeatures,
      (∃ n : ℤ, transaction_score g = n / 20) ∧
      (∃ n : ℤ, financial_alert_score g = n / 20) := by
    intro g
    constructor
    · unfold transaction_score
      refine ⟨(if g.amount_match then 5 else 0) + (if g.account_match then 4 else 0) +
        (if g.credit_match || g.debit_match then 6 else 0) +
        (if g.bank_sender_match then 3 else 0) +
        (if g.upi_match || g.neft_match || g.imps_match then 2 else 0), ?_⟩
      push_cast
      split_ifs <;> norm_num
    · unfold financial_alert_score
      refine ⟨(if g.bank_sender_match then 6 else 0) + (if g.amount_match then 3 else 0) +
        (if g.balance_match then 4 else 0) + (if g.non_transaction_match then 5 else 0) +
        (if g.account_match then 2 else 0), ?_⟩
      push_cast
      split_ifs <;> norm_num
  unfold label_sms
  split
  · exact key _ ⟨18, by norm_num⟩
  split
  · exact key _ ⟨19, by norm_num⟩
  split
  · obtain ⟨⟨n, hn⟩, -⟩ := score20 f
    simp only
    rw [min_def]
    split
    · exact key _ ⟨n + 2, by rw [hn]; push_cast; ring⟩
    · exact key _ ⟨20, by norm_num⟩
  split
  · obtain ⟨-, ⟨n, hn⟩⟩ := score20 f
    simp only
    rw [min_def]
    split
    · exact key _ ⟨n + 2, by rw [hn]; push_cast; ring⟩
    · exact key _ ⟨20, by norm_num⟩
  split
  · exact key _ ⟨16, by norm_num⟩
  split
  · exact key _ ⟨14, by norm_num⟩
  · exact key _ ⟨12, by norm_num⟩

/-- **C3.** Router merge rule.  (a) When the rule confidence is below
0.65, the trained model answers, and its confidence is strictly greater
than the rule confidence, the returned result carries the model's label
and confidence (3-decimal rounded, the identity on any model confidence
with at most three decimals), keeps the rule sub-label, and is marked
with the non-rule method (`'ml_ensemble'`, the code's name for the spec's
`statistical`).  (b) When the rule confidence is at least 0.65 the rule
result is returned unchanged with `method = 'rule_based'`. -/
theorem C3_router_merge (f : SmsFeatures) (ml_label : String) (ml_confidence : ℚ)
    (hml3 : round3 ml_confidence = ml_confidence) :
    ((label_sms f).2.2 < 65/100 → ml_confidence > (label_sms f).2.2 →
      classify f true (some (ml_label, ml_confidence)) =
        { label := ml_label, sub_label := (label_sms f).2.1,
          confidence := ml_confidence, method := "ml_ensemble" }) ∧
    (65/100 ≤ (label_sms f).2.2 →
      classify f true (some (ml_label, ml_confidence)) =
        { label := (label_sms f).1, sub_label := (label_sms f).2.1,
          confidence := (label_sms f).2.2, method := "rule_based" }) := by
  constructor
  · intro hlow hgt
    unfold classify CONFIDENCE_THRESHOLD
    rw [if_pos ⟨hlow, rfl⟩]
    dsimp only
    rw [if_pos hgt, hml3]
  · intro hhigh
    unfold classify CONFIDENCE_THRESHOLD
    rw [if_neg (by rintro ⟨h, -⟩; linarith), round3_label_sms]

/-- Witness for `C3_router_merge`: the spec's own scenario — rule
confidence 0.60 (a default-branch message, below 0.65) and a model
prediction `("personal", 0.80)`; and a spam message (rule confidence
0.90 ≥ 0.65) left unchanged. -/
theorem C3_router_merge_witness :
    classify ⟨false, false, false, false, false, false, false, false, false, false,
        false, false, false, false, 0, 0, false, false, false, false⟩
        true (some ("personal", 4/5)) =
      { label := "personal", sub_label := "informational",
        confidence := 4/5, method := "ml_ensemble" } ∧
    classify ⟨true, false, false, false, false, false, false, false, false, false,
        false, false, false, false, 0, 0, false, false, false, false⟩
        true (some ("personal", 4/5)) =
      { label := "spam", sub_label := "phishing",
        confidence := 9/10, method := "rule_based" } := by
  have h3 : round3 (4/5) = 4/5 := by unfold round3; norm_num
  constructor
  · have h := (C3_router_merge ⟨false, false, false, false, false, false, false, false,
      false, false, false, false, false, false, 0, 0, false, false, false, false⟩
      "personal" (4/5) h3).1
    simp only [label_sms, transaction_score, financial_alert_score] at h ⊢
    norm_num at h
    exact h
  · have h := (C3_router_merge ⟨true, false, false, false, false, false, false, false,
      false, false, false, false, false, false, 0, 0, false, false, false, false⟩
      "personal" (4/5) h3).2
    simp only [label_sms] at h ⊢
    norm_num at h
    exact h

/-- **C4 counterexample.** A history of six debits none of which has an
amount (so it contains zero entries with amounts, fewer than 5) together
with a debit whose timestamp falls within 24h of all of them: contrary to
the claim, `detect_anomaly` is *not* inert — the debit-frequency block
only requires `len(user_history) ≥ 3`, not 5 entries with amounts — and
flags an anomaly with score 0.30. -/
theorem C4_counterexample :
    (historicalAmounts [⟨none, some "debit", some 0, none⟩,
        ⟨none, some "debit", some 0, none⟩, ⟨none, some "debit", some 0, none⟩,
        ⟨none, some "debit", some 0, none⟩, ⟨none, some "debit", some 0, none⟩,
        ⟨none, some "debit", some 0, none⟩]).length < 5 ∧
    detect_anomaly ⟨some 100, some "debit", some 0, none⟩
        [⟨none, some "debit", some 0, none⟩, ⟨none, some "debit", some 0, none⟩,
         ⟨none, some "debit", some 0, none⟩, ⟨none, some "debit", some 0, none⟩,
         ⟨none, some "debit", some 0, none⟩, ⟨none, some "debit", some 0, none⟩] =
      { is_anomaly := true, anomaly_score := 3/10,
        anomaly_reasons := [.frequent_debits] } := by
  constructor
  · simp [historicalAmounts]
  · simp only [detect_anomaly, amountTruthy, z_component, freq_component,
      counterparty_component, historicalAmounts, List.filterMap, List.isEmpty,
      List.any, List.filter, List.length]
    norm_num [round3]

/-- **C4 (amended).** `detect_anomaly` is inert (`is_anomaly = false`,
score 0, no reasons) whenever the history is empty *or* the current
amount is missing/zero; and with fewer than 5 historical entries carrying
amounts the z-score block contributes nothing.  (The original claim —
inert for *every* history with fewer than 5 amounts — fails, because the
debit-frequency and new-counterparty blocks key on the raw history
length, not on the number of entries with amounts;
see `C4_counterexample`.) -/
theorem C4_small_history_inert :
    (∀ txn : AnomalyTxn, detect_anomaly txn [] =
      { is_anomaly := false, anomaly_score := 0, anomaly_reasons := [] }) ∧
    (∀ (txn : AnomalyTxn) (h : List AnomalyTxn), amountTruthy txn.amount = false →
      detect_anomaly txn h =
        { is_anomaly := false, anomaly_score := 0, anomaly_reasons := [] }) ∧
    (∀ (txn : AnomalyTxn) (h : List AnomalyTxn),
      (historicalAmounts h).length < 5 → z_component txn h = (0, [])) := by
  refine ⟨fun txn => by simp [detect_anomaly], fun txn h hfalsy => by
    simp [detect_anomaly, hfalsy], fun txn h hlen => ?_⟩
  unfold z_component
  match htxn : txn.amount with
  | none => rfl
  | some a => simp [Nat.not_le.mpr hlen]

/-- Witness for `C4_small_history_inert` at concrete inputs. -/
theorem C4_small_history_inert_witness :
    detect_anomaly ⟨some 5, some "debit", some 0, none⟩ [] =
      { is_anomaly := false, anomaly_score := 0, anomaly_reasons := [] } ∧
    detect_anomaly ⟨some 0, some "debit", some 0, none⟩
        [⟨some 1, none, some 0, none⟩] =
      { is_anomaly := false, anomaly_score := 0, anomaly_reasons := [] } ∧
    z_component ⟨some 5, some "debit", some 0, none⟩ [⟨some 1, none, some 0, none⟩] =
      (0, []) := by
  refine ⟨C4_small_history_inert.1 _, C4_small_history_inert.2.1 _ _ ?_,
    C4_small_history_inert.2.2 _ _ ?_⟩
  · simp [amountTruthy]
  · simp [historicalAmounts]

/-- **C5 counterexample.** History amounts `[100, 100, 100, 100, 101]`
have variance 0.16, i.e. a standard deviation of 0.4, strictly between 0
and 1; current amount 101.4.  Under the claim's divisor `max(std, 1.0)`
the z-score would be `1.2/1 = 1.2` and the z block would contribute 0 —
but the code divides by `std` itself (`np.std(...) or 1.0` only replaces
a *zero* deviation), gets `z = 3`, and scores 0.20. -/
theorem C5_counterexample :
    0 < listVar (historicalAmounts [⟨some 100, none, none, none⟩,
        ⟨some 100, none, none, none⟩, ⟨some 100, none, none, none⟩,
        ⟨some 100, none, none, none⟩, ⟨some 101, none, none, none⟩]) ∧
    listVar (historicalAmounts [⟨some 100, none, none, none⟩,
        ⟨some 100, none, none, none⟩, ⟨some 100, none, none, none⟩,
        ⟨some 100, none, none, none⟩, ⟨some 101, none, none, none⟩]) < 1 ∧
    z_component_specMax ⟨some (507/5), none, none, none⟩
        [⟨some 100, none, none, none⟩, ⟨some 100, none, none, none⟩,
         ⟨some 100, none, none, none⟩, ⟨some 100, none, none, none⟩,
         ⟨some 101, none, none, none⟩] = (0, []) ∧
    detect_anomaly ⟨some (507/5), none, none, none⟩
        [⟨some 100, none, none, none⟩, ⟨some 100, none, none, none⟩,
         ⟨some 100, none, none, none⟩, ⟨some 100, none, none, none⟩,
         ⟨some 101, none, none, none⟩] =
      { is_anomaly := false, anomaly_score := 1/5,
        anomaly_reasons := [.amount_z_moderate] } := by
  have hamts : historicalAmounts [⟨some 100, none, none, none⟩,
      ⟨some 100, none, none, none⟩, ⟨some 100, none, none, none⟩,
      ⟨some 100, none, none, none⟩, ⟨some 101, none, none, none⟩] =
      [100, 100, 100, 100, 101] := by
    simp [historicalAmounts, List.filterMap]
  have hmean : listMean [(100 : ℚ), 100, 100, 100, 101] = 501/5 := by
    norm_num [listMean]
  have hvar : listVar [(100 : ℚ), 100, 100, 100, 101] = 4/25 := by
    norm_num [listVar, listMean]
  have habs : |(507 : ℚ)/5 - 501/5| = 6/5 := by
    rw [show (507 : ℚ)/5 - 501/5 = 6/5 by norm_num]
    exact abs_of_nonneg (by norm_num)
  refine ⟨by rw [hamts, hvar]; norm_num, by rw [hamts, hvar]; norm_num, ?_, ?_⟩
  · simp only [z_component_specMax, hamts]
    rw [if_pos (by norm_num), if_pos (by rw [hvar]; norm_num)]
    rw [hmean, if_neg (by rw [habs]; norm_num), if_neg (by rw [habs]; norm_num)]
  · simp only [detect_anomaly, amountTruthy]
    rw [if_neg (by norm_num)]
    have hz : z_component ⟨some (507/5), none, none, none⟩
        [⟨some 100, none, none, none⟩, ⟨some 100, none, none, none⟩,
         ⟨some 100, none, none, none⟩, ⟨some 100, none, none, none⟩,
         ⟨some 101, none, none, none⟩] = (20/100, [.amount_z_moderate]) := by
      simp only [z_component, hamts]
      rw [if_pos (by norm_num), if_neg (by rw [hvar]; norm_num)]
      rw [hmean, hvar, if_neg (by norm_num), if_pos (by norm_num)]
    rw [hz]
    norm_num [freq_component, counterparty_component, round3]

/-- **C5 (amended).** With an amount and at least 5 historical amounts,
the z block computes `z = |amount − mean| / d` where the divisor `d` is
the standard deviation itself whenever it is non-zero and `1.0` only when
it is zero (Python `np.std(...) or 1.0`, not the spec's `max(std, 1.0)`;
see `C5_counterexample`), adding +0.40 when `z > 3` and +0.20 when
`2 < z ≤ 3`.  Stated for any `s ≥ 0` with `s² = variance`, i.e.
`s = np.std(historical_amounts)`. -/
theorem C5_z_divisor_is_std_or_one (txn : AnomalyTxn)
    (hist : List AnomalyTxn) (a s : ℚ)
    (ha : txn.amount = some a)
    (hlen : (historicalAmounts hist).length ≥ 5)
    (hs0 : 0 ≤ s) (hs : s ^ 2 = listVar (historicalAmounts hist)) :
    z_component txn hist =
      (let z := |a - listMean (historicalAmounts hist)| / (if s = 0 then 1 else s)
       if z > 3 then ((40 : ℚ)/100, [AnomalyReason.amount_z_high])
       else if z > 2 then ((20 : ℚ)/100, [AnomalyReason.amount_z_moderate])
       else (0, [])) := by
  unfold z_component
  rw [ha]
  simp only [if_pos hlen]
  set m := listMean (historicalAmounts hist) with hm
  by_cases hsz : s = 0
  · subst hsz
    rw [if_pos (show listVar (historicalAmounts hist) = 0 by rw [← hs]; norm_num)]
    simp
  · have hspos : 0 < s := lt_of_le_of_ne hs0 (Ne.symm hsz)
    have hvpos : ¬ listVar (historicalAmounts hist) = 0 := by
      rw [← hs]; positivity
    rw [if_neg hvpos]
    have h3 : ((a - m) ^ 2 > 9 * listVar (historicalAmounts hist)) ↔
        (|a - m| / (if s = 0 then 1 else s) > 3) := by
      rw [if_neg hsz, gt_iff_lt, gt_iff_lt, lt_div_iff₀ hspos, ← hs]
      constructor
      · intro h
        nlinarith [sq_abs (a - m), abs_nonneg (a - m)]
      · intro h
        nlinarith [sq_abs (a - m), abs_nonneg (a - m)]
    have h2 : ((a - m) ^ 2 > 4 * listVar (historicalAmounts hist)) ↔
        (|a - m| / (if s = 0 then 1 else s) > 2) := by
      rw [if_neg hsz, gt_iff_lt, gt_iff_lt, lt_div_iff₀ hspos, ← hs]
      constructor
      · intro h
        nlinarith [sq_abs (a - m), abs_nonneg (a - m)]
      · intro h
        nlinarith [sq_abs (a - m), abs_nonneg (a - m)]
    simp only [h3, h2]

/-- Witness for `C5_z_divisor_is_std_or_one` at the counterexample's
history (std 0.4) and amount 101.4: `z = 1.2 / 0.4 = 3`, contributing
+0.20. -/
theorem C5_z_divisor_is_std_or_one_witness :
    (0 : ℚ) ≤ 2/5 ∧
    ((2 : ℚ)/5) ^ 2 = listVar (historicalAmounts [⟨some 100, none, none, none⟩,
      ⟨some 100, none, none, none⟩, ⟨some 100, none, none, none⟩,
      ⟨some 100, none, none, none⟩, ⟨some 101, none, none, none⟩]) ∧
    z_component ⟨some (507/5), none, none, none⟩
        [⟨some 100, none, none, none⟩, ⟨some 100, none, none, none⟩,
         ⟨some 100, none, none, none⟩, ⟨some 100, none, none, none⟩,
         ⟨some 101, none, none, none⟩] = (20/100, [.amount_z_moderate]) := by
  have hamts : historicalAmounts [⟨some 100, none, none, none⟩,
      ⟨some 100, none, none, none⟩, ⟨some 100, none, none, none⟩,
      ⟨some 100, none, none, none⟩, ⟨some 101, none, none, none⟩] =
      [100, 100, 100, 100, 101] := by
    simp [historicalAmounts, List.filterMap]
  have hvar : ((2 : ℚ)/5) ^ 2 = listVar (historicalAmounts [⟨some 100, none, none, none⟩,
      ⟨some 100, none, none, none⟩, ⟨some 100, none, none, none⟩,
      ⟨some 100, none, none, none⟩, ⟨some 101, none, none, none⟩]) := by
    rw [hamts]; norm_num [listVar, listMean]
  refine ⟨by norm_num, hvar, ?_⟩
  rw [C5_z_divisor_is_std_or_one _ _ (507/5) (2/5) rfl
    (by rw [hamts]; norm_num) (by norm_num) hvar]
  rw [hamts]
  have : |(507 : ℚ)/5 - listMean [100, 100, 100, 100, 101]| / (if (2:ℚ)/5 = 0 then 1 else 2/5) = 3 := by
    rw [if_neg (by norm_num), show listMean [(100:ℚ), 100, 100, 100, 101] = 501/5 by norm_num [listMean],
      show (507 : ℚ)/5 - 501/5 = 6/5 by norm_num, abs_of_nonneg (by norm_num : (0:ℚ) ≤ 6/5)]
    norm_num
  simp only [this]
  norm_num

theorem z_component_nonneg (t : AnomalyTxn) (h : List AnomalyTxn) :
    0 ≤ (z_component t h).1 := by
  unfold z_component
  rcases t.amount with - | a <;> simp only
  · norm_num
  · split_ifs <;> norm_num

theorem freq_component_nonneg (t : AnomalyTxn) (h : List AnomalyTxn) :
    0 ≤ (freq_component t h).1 := by
  unfold freq_component
  split
  · rcases t.timestamp with - | ts <;> simp only
    · norm_num
    · split_ifs <;> norm_num
  · norm_num

theorem counterparty_component_nonneg (t : AnomalyTxn) (h : List AnomalyTxn) :
    0 ≤ (counterparty_component t h).1 := by
  simp only [counterparty_component]
  split_ifs <;> norm_num

theorem detect_anomaly_score_nonneg (t : AnomalyTxn) (h : List AnomalyTxn) :
    0 ≤ (detect_anomaly t h).anomaly_score := by
  unfold detect_anomaly
  split
  · norm_num
  · refine round3_nonneg (le_min ?_ (by norm_num))
    have h1 := z_component_nonneg t h
    have h2 := freq_component_nonneg t h
    have h3 := counterparty_component_nonneg t h
    linarith

/-- **C6 counterexample.** Fixed history of five transactions of amount
100 (mean 100); candidate amounts `a₁ = 1` and `a₂ = 0` with
`|a₁ − mean| = 99 ≤ 100 = |a₂ − mean|` — yet the score for `a₁` is 0.40
while the score for `a₂` is 0, because an amount of exactly 0 is falsy in
Python and short-circuits `detect_anomaly` into the inert result.  So the
score is not monotone in `|amount − mean|` over all amounts. -/
theorem C6_counterexample :
    |(1 : ℚ) - listMean (historicalAmounts [⟨some 100, none, none, none⟩,
        ⟨some 100, none, none, none⟩, ⟨some 100, none, none, none⟩,
        ⟨some 100, none, none, none⟩, ⟨some 100, none, none, none⟩])| ≤
      |(0 : ℚ) - listMean (historicalAmounts [⟨some 100, none, none, none⟩,
        ⟨some 100, none, none, none⟩, ⟨some 100, none, none, none⟩,
        ⟨some 100, none, none, none⟩, ⟨some 100, none, none, none⟩])| ∧
    (detect_anomaly ⟨some 1, none, none, none⟩ [⟨some 100, none, none, none⟩,
        ⟨some 100, none, none, none⟩, ⟨some 100, none, none, none⟩,
        ⟨some 100, none, none, none⟩, ⟨some 100, none, none, none⟩]).anomaly_score = 2/5 ∧
    (detect_anomaly ⟨some 0, none, none, none⟩ [⟨some 100, none, none, none⟩,
        ⟨some 100, none, none, none⟩, ⟨some 100, none, none, none⟩,
        ⟨some 100, none, none, none⟩, ⟨some 100, none, none, none⟩]).anomaly_score = 0 := by
  have hamts : historicalAmounts [⟨some 100, none, none, none⟩,
      ⟨some 100, none, none, none⟩, ⟨some 100, none, none, none⟩,
      ⟨some 100, none, none, none⟩, ⟨some 100, none, none, none⟩] =
      [100, 100, 100, 100, 100] := by
    simp [historicalAmounts, List.filterMap]
  have hmean : listMean [(100 : ℚ), 100, 100, 100, 100] = 100 := by
    norm_num [listMean]
  refine ⟨?_, ?_, ?_⟩
  · rw [hamts, hmean]
    rw [show |(1 : ℚ) - 100| = 99 by rw [abs_of_nonpos (by norm_num)]; norm_num,
      show |(0 : ℚ) - 100| = 100 by rw [abs_of_nonpos (by norm_num)]; norm_num]
    norm_num
  · simp only [detect_anomaly, amountTruthy]
    rw [if_neg (by norm_num)]
    have hz : z_component ⟨some 1, none, none, none⟩ [⟨some 100, none, none, none⟩,
        ⟨some 100, none, none, none⟩, ⟨some 100, none, none, none⟩,
        ⟨some 100, none, none, none⟩, ⟨some 100, none, none, none⟩] =
        (40/100, [.amount_z_high]) := by
      simp only [z_component, hamts]
      rw [if_pos (by norm_num), if_pos (by norm_num [listVar, listMean]),
        hmean, if_pos (by rw [show |(1 : ℚ) - 100| = 99 by
          rw [abs_of_nonpos (by norm_num)]; norm_num]; norm_num)]
    rw [hz]
    norm_num [freq_component, counterparty_component, round3]
  · simp [detect_anomaly, amountTruthy]

/-- **C6 (amended).** For a fixed history and fixed non-amount fields the
anomaly score is monotonically non-decreasing in `|amount − mean|`,
*provided* the larger-deviation amount is not the falsy value 0 (an
amount of exactly 0 — like a missing one — makes `detect_anomaly` inert
regardless of its deviation; see `C6_counterexample`, which is the only
way the original claim fails). -/
theorem C6_score_monotone (t : AnomalyTxn) (hist : List AnomalyTxn) (a1 a2 : ℚ)
    (hz : a2 ≠ 0 ∨ a1 = 0)
    (hdev : |a1 - listMean (historicalAmounts hist)| ≤
      |a2 - listMean (historicalAmounts hist)|) :
    (detect_anomaly { t with amount := some a1 } hist).anomaly_score ≤
      (detect_anomaly { t with amount := some a2 } hist).anomaly_score := by
  by_cases hemp : hist.isEmpty
  · unfold detect_anomaly
    rw [if_pos (by rw [hemp]; simp), if_pos (by rw [hemp]; simp)]
  by_cases ha1 : a1 = 0
  · have h1 : (detect_anomaly { t with amount := some a1 } hist).anomaly_score = 0 := by
      unfold detect_anomaly
      rw [if_pos (by simp [amountTruthy, ha1])]
    rw [h1]
    exact detect_anomaly_score_nonneg _ _
  have ha2 : a2 ≠ 0 := by rcases hz with h | h; exact h; exact absurd h ha1
  unfold detect_anomaly
  rw [if_neg (by simp [amountTruthy, ha1, hemp]),
    if_neg (by simp [amountTruthy, ha2, hemp])]
  simp only
  have hfr : freq_component { t with amount := some a1 } hist =
      freq_component { t with amount := some a2 } hist := rfl
  have hcp : counterparty_component { t with amount := some a1 } hist =
      counterparty_component { t with amount := some a2 } hist := rfl
  have hzc : (z_component { t with amount := some a1 } hist).1 ≤
      (z_component { t with amount := some a2 } hist).1 := by
    unfold z_component
    simp only
    set m := listMean (historicalAmounts hist) with hm
    by_cases hlen : (historicalAmounts hist).length ≥ 5
    · rw [if_pos hlen, if_pos hlen]
      have hsq : (a1 - m) ^ 2 ≤ (a2 - m) ^ 2 := by
        rw [← sq_abs (a1 - m), ← sq_abs (a2 - m)]
        exact pow_le_pow_left₀ (abs_nonneg _) hdev 2
      split_ifs <;> linarith
    · rw [if_neg hlen, if_neg hlen]
  rw [hfr, hcp]
  exact round3_mono (min_le_min (by linarith) le_rfl)

/-- Witness for `C6_score_monotone`: amounts 101 and 105 against the
constant-100 history (deviations 1 ≤ 5). -/
theorem C6_score_monotone_witness :
    ((5 : ℚ) ≠ 0 ∨ (101 : ℚ) = 0) ∧
    |(101 : ℚ) - listMean (historicalAmounts [⟨some 100, none, none, none⟩,
        ⟨some 100, none, none, none⟩, ⟨some 100, none, none, none⟩,
        ⟨some 100, none, none, none⟩, ⟨some 100, none, none, none⟩])| ≤
      |(105 : ℚ) - listMean (historicalAmounts [⟨some 100, none, none, none⟩,
        ⟨some 100, none, none, none⟩, ⟨some 100, none, none, none⟩,
        ⟨some 100, none, none, none⟩, ⟨some 100, none, none, none⟩])| ∧
    (detect_anomaly { (⟨none, none, none, none⟩ : AnomalyTxn) with amount := some 101 }
        [⟨some 100, none, none, none⟩, ⟨some 100, none, none, none⟩,
         ⟨some 100, none, none, none⟩, ⟨some 100, none, none, none⟩,
         ⟨some 100, none, none, none⟩]).anomaly_score ≤
      (detect_anomaly { (⟨none, none, none, none⟩ : AnomalyTxn) with amount := some 105 }
        [⟨some 100, none, none, none⟩, ⟨some 100, none, none, none⟩,
         ⟨some 100, none, none, none⟩, ⟨some 100, none, none, none⟩,
         ⟨some 100, none, none, none⟩]).anomaly_score := by
  have hamts : historicalAmounts [⟨some 100, none, none, none⟩,
      ⟨some 100, none, none, none⟩, ⟨some 100, none, none, none⟩,
      ⟨some 100, none, none, none⟩, ⟨some 100, none, none, none⟩] =
      [100, 100, 100, 100, 100] := by
    simp [historicalAmounts, List.filterMap]
  have hdev : |(101 : ℚ) - listMean (historicalAmounts [⟨some 100, none, none, none⟩,
      ⟨some 100, none, none, none⟩, ⟨some 100, none, none, none⟩,
      ⟨some 100, none, none, none⟩, ⟨some 100, none, none, none⟩])| ≤
      |(105 : ℚ) - listMean (historicalAmounts [⟨some 100, none, none, none⟩,
      ⟨some 100, none, none, none⟩, ⟨some 100, none, none, none⟩,
      ⟨some 100, none, none, none⟩, ⟨some 100, none, none, none⟩])| := by
    rw [hamts, show listMean [(100 : ℚ), 100, 100, 100, 100] = 100 by norm_num [listMean],
      show |(101 : ℚ) - 100| = 1 by rw [abs_of_nonneg (by norm_num)]; norm_num,
      show |(105 : ℚ) - 100| = 5 by rw [abs_of_nonneg (by norm_num)]; norm_num]
    norm_num
  exact ⟨Or.inl (by norm_num),
    hdev, C6_score_monotone _ _ _ _ (Or.inl (by norm_num)) hdev⟩

/-- **C9.** (implicit) `analyze_sms` reports `is_anomaly = false` for
every message and every history: the spam branch hard-codes it and the
non-spam branch never calls `detect_anomaly`, returning the hard-coded
inert result with `is_genuine = true`, `fraud_confidence = 0.0` and no
reasons. -/
theorem C9_analyze_sms_never_anomalous (s : SpamSms) (hist : List AnomalyTxn) :
    (analyze_sms s hist).is_anomaly = false ∧
    ((analyze_sms s hist).is_spam = false →
      (analyze_sms s hist).is_genuine = true ∧
      (analyze_sms s hist).fraud_confidence = 0 ∧
      (analyze_sms s hist).reason_count = 0) := by
  unfold analyze_sms
  by_cases h : (detect_spam s).is_spam
  · simp [h]
  · simp [h]

/-- Witness for `C9_analyze_sms_never_anomalous`: a message hitting no
spam pattern from a legitimate bank prefix, with a non-empty history. -/
theorem C9_analyze_sms_never_anomalous_witness :
    (analyze_sms ⟨fun _ => false, true, false, true, [], false⟩
      [⟨some 100, none, none, none⟩]).is_anomaly = false ∧
    (analyze_sms ⟨fun _ => false, true, false, true, [], false⟩
      [⟨some 100, none, none, none⟩]).is_genuine = true ∧
    (analyze_sms ⟨fun _ => false, true, false, true, [], false⟩
      [⟨some 100, none, none, none⟩]).fraud_confidence = 0 ∧
    (analyze_sms ⟨fun _ => false, true, false, true, [], false⟩
      [⟨some 100, none, none, none⟩]).reason_count = 0 := by
  have h := C9_analyze_sms_never_anomalous
    ⟨fun _ => false, true, false, true, [], false⟩ [⟨some 100, none, none, none⟩]
  have hspam : (analyze_sms ⟨fun _ => false, true, false, true, [], false⟩
      [⟨some 100, none, none, none⟩]).is_spam = false := by
    unfold analyze_sms detect_spam
    rw [if_neg (by
      simp only [List.finRange, List.filter, List.ofFn]
      norm_num)]
  obtain ⟨h1, h2⟩ := h
  exact ⟨h1, (h2 hspam).1, (h2 hspam).2.1, (h2 hspam).2.2⟩

/-- **C7 counterexample.** A transaction with no amount (and nothing
else): the amount position of the hashed string is `"0.0"` — `str` of the
`_safe_float` default — not the empty string the claim asserts. -/
theorem C7_counterexample :
    dedupKeyString ⟨.absent, .absent, .absent, .absent, .absent, .absent⟩ =
      "0.0|||||" ∧
    dedupKeyString ⟨.absent, .absent, .absent, .absent, .absent, .absent⟩ ≠
      "|||||" := by
  have h1 : dedupKeyString ⟨.absent, .absent, .absent, .absent, .absent, .absent⟩ =
      "0.0|||||" := rfl
  refine ⟨h1, ?_⟩
  rw [h1]
  decide

/-- **C7 (amended).** The dedup key is the digest of the six fields
joined with `'|'`: the five string-typed fields normalize an absent key
to `""` (and a `None` value to `"None"`), a present string to itself; the
amount normalizes through `_safe_float` and `str`, so a numeric amount
becomes its decimal float string but a missing (`absent`/`None`) amount
becomes `"0.0"`, *not* the empty string — in particular absent, `None`
and `0.0` amounts all produce the same key (see `C7_counterexample` for
the claim's false "empty amount position"). -/
theorem C7_dedup_key_normalization (d t s b c : PyField)
    (sha256_hexdigest : String → String) :
    transaction_hash sha256_hexdigest ⟨.absent, d, t, s, b, c⟩ =
      transaction_hash sha256_hexdigest ⟨.pynone, d, t, s, b, c⟩ ∧
    transaction_hash sha256_hexdigest ⟨.pynone, d, t, s, b, c⟩ =
      transaction_hash sha256_hexdigest ⟨.num 0, d, t, s, b, c⟩ ∧
    dedupKeyString ⟨.absent, d, t, s, b, c⟩ =
      "0.0" ++ "|" ++ strField d ++ "|" ++ strField t ++ "|" ++ strField s ++
        "|" ++ strField b ++ "|" ++ strField c ∧
    strField .absent = "" ∧
    strField .pynone = "None" ∧
    (∀ str : String, strField (.str str) = str) ∧
    (∀ q : ℚ, amountStr (.num q) = floatStr q) := by
  refine ⟨rfl, rfl, ?_, rfl, rfl, fun _ => rfl, fun _ => rfl⟩
  have ha : amountStr PyField.absent = "0.0" := rfl
  unfold dedupKeyString
  rw [ha]

theorem matchCurrency_marker {l r : List Char} (h : matchCurrency l = some r) :
    containsCurrencyMarker l := by
  unfold containsCurrencyMarker
  cases l with
  | nil => simp [matchCurrency] at h
  | cons c1 rest =>
    by_cases h1 : c1.toLower = 'r'
    · cases rest with
      | nil => simp [matchCurrency, h1] at h
      | cons c2 rest2 =>
        by_cases h2 : c2.toLower = 's'
        · exact Or.inl ⟨[], rest2.map Char.toLower, by simp [h1, h2]⟩
        · simp [matchCurrency, h1, h2] at h
    · by_cases h3 : c1.toLower = 'i'
      · cases rest with
        | nil => simp [matchCurrency, h1, h3] at h
        | cons c2 rest2 =>
          cases rest2 with
          | nil => simp [matchCurrency, h1, h3] at h
          | cons c3 rest3 =>
            by_cases h4 : c2.toLower = 'n' ∧ c3.toLower = 'r'
            · exact Or.inr (Or.inl ⟨[], rest3.map Char.toLower,
                by simp [h1, h3, h4.1, h4.2]⟩)
            · rw [Decidable.not_and_iff_or_not] at h4
              rcases h4 with h4 | h4 <;> simp [matchCurrency, h1, h3, h4] at h
      · by_cases h5 : c1 = '₹'
        · exact Or.inr (Or.inr (h5 ▸ List.mem_cons_self c1 rest))
        · simp [matchCurrency, h1, h3, h5] at h

theorem marker_of_suffix {l' l : List Char} (hs : l' <:+ l)
    (h : containsCurrencyMarker l') : containsCurrencyMarker l := by
  rcases h with h | h | h
  · exact Or.inl (h.trans (hs.map Char.toLower).isInfix)
  · exact Or.inr (Or.inl (h.trans (hs.map Char.toLower).isInfix))
  · exact Or.inr (Or.inr (hs.subset h))

theorem matchAlt1_marker {l g : List Char} (h : matchAlt1 l = some g) :
    containsCurrencyMarker l := by
  unfold matchAlt1 at h
  cases hc : matchCurrency l with
  | none => rw [hc] at h; exact absurd h (by simp)
  | some r1 => exact matchCurrency_marker hc

theorem finishAlt2_marker {l : List Char} (h : finishAlt2 l = true) :
    containsCurrencyMarker l := by
  unfold finishAlt2 at h
  cases hc : matchCurrency (l.dropWhile isPySpace) with
  | none => rw [hc] at h; simp at h
  | some r =>
    exact marker_of_suffix (List.dropWhile_suffix _) (matchCurrency_marker hc)

theorem matchAlt2_marker {l g : List Char} (h : matchAlt2 l = some g) :
    containsCurrencyMarker l := by
  simp only [matchAlt2] at h
  split at h
  · simp at h
  · generalize hrr : l.dropWhile isDigitComma = r at h
    have hsuf : r <:+ l := hrr ▸ List.dropWhile_suffix _
    split at h <;> repeat' split at h
    all_goals
      first
        | (rename_i hc
           first
             | (obtain ⟨-, hfin⟩ := Bool.and_eq_true_iff.mp hc
                refine marker_of_suffix ?_ (finishAlt2_marker hfin))
             | refine marker_of_suffix ?_ (finishAlt2_marker hc)
           first
             | exact hsuf
             | exact (List.suffix_cons _ _).trans hsuf
             | exact (List.suffix_cons _ _).trans ((List.suffix_cons _ _).trans hsuf)
             | exact (List.suffix_cons _ _).trans
                 ((List.suffix_cons _ _).trans ((List.suffix_cons _ _).trans hsuf)))
        | simp at h

theorem searchAmount_marker {l g : List Char} (h : searchAmount l = some g) :
    containsCurrencyMarker l := by
  induction l with
  | nil => simp [searchAmount] at h
  | cons c rest ih =>
    unfold searchAmount at h
    split at h
    · rename_i halt1
      exact matchAlt1_marker halt1
    split at h
    · rename_i halt2
      exact matchAlt2_marker halt2
    · exact marker_of_suffix (List.suffix_cons c rest) (ih h)

/-- **C8.** Amount extraction: `"Rs. 1,23,456.78"` parses to 123456.78
(Indian comma grouping stripped before `float`), `"INR 500"` to 500.0, a
body containing no currency marker (no `Rs`/`INR`/`₹` at all, even
case-insensitively) parses to `None` — any successful match must contain
one — and the leftmost match is the primary amount (`"… Rs 100 and
Rs 200 …"` gives 100). -/
theorem C8_parse_amount :
    parse_amount "Rs. 1,23,456.78" = some (12345678/100) ∧
    parse_amount "INR 500" = some 500 ∧
    (∀ body : String, ¬ containsCurrencyMarker body.data →
      parse_amount body = none) ∧
    parse_amount "Sent Rs 100 and Rs 200 today" = some 100 := by
  refine ⟨?_, ?_, ?_, ?_⟩
  · rw [show parse_amount "Rs. 1,23,456.78" = pyFloatLit? "123456.78" from rfl,
      show pyFloatLit? "123456.78" =
        some ((1 : ℚ) * (((123456 : ℕ) : ℚ) + ((78 : ℕ) : ℚ) / 10 ^ 2)) from rfl]
    norm_num
  · rw [show parse_amount "INR 500" = pyFloatLit? "500" from rfl,
      show pyFloatLit? "500" =
        some ((1 : ℚ) * (((500 : ℕ) : ℚ) + ((0 : ℕ) : ℚ) / 10 ^ 0)) from rfl]
    norm_num
  · intro body hmk
    unfold parse_amount
    cases hs : searchAmount body.data with
    | none => rfl
    | some g => exact absurd (searchAmount_marker hs) hmk
  · rw [show parse_amount "Sent Rs 100 and Rs 200 today" = pyFloatLit? "100" from rfl,
      show pyFloatLit? "100" =
        some ((1 : ℚ) * (((100 : ℕ) : ℚ) + ((0 : ℕ) : ℚ) / 10 ^ 0)) from rfl]
    norm_num

/-- Witness for `C8_parse_amount`'s universally quantified part at a
concrete marker-free body. -/
theorem C8_parse_amount_witness :
    ¬ containsCurrencyMarker ("Hello, your OTP is 482913").data ∧
    parse_amount "Hello, your OTP is 482913" = none := by
  have hm : ¬ containsCurrencyMarker ("Hello, your OTP is 482913").data := by decide
  exact ⟨hm, C8_parse_amount.2.2.1 _ hm⟩

end FinSight
